import Mathlib

/-!
Verification model of the streamable-mcp-server repository
(src/mcpServer.ts and src/sseServer.ts).

The two servers are shallowly embedded:

* The JS `Record<string, T>` session tables (`transports`, `servers`) are
  modelled as association lists `List (String × τ)` with JS-object
  semantics: lookup finds the unique binding of a key, assignment
  overwrites, `delete` removes the binding.
* Express request handlers become pure functions from (table, request
  data) to (outcome, table).
* JS truthiness of the `string | undefined` session ids is modelled
  explicitly: `undefined` and the empty string are falsy.
* The `stream_numbers` tool loops (`for (let i = 1; i <= count; i++)`)
  are embedded as well-founded recursions on the loop index, with a
  `deliver` oracle saying whether the i-th `sendNotification` promise
  resolves or rejects.  `mcpServer.ts` awaits each send (a rejection
  aborts the handler), while `sseServer.ts` fires and forgets with a
  `.catch` (a rejection is logged and the loop continues).
* A JS `number` used as a loop bound is either a mathematical integer or
  `NaN` (`JSNum`); every comparison with `NaN` is false.
-/

/-! ### Session tables (JS `Record<string, τ>`) -/

/-- Lookup of a key in a session table: `transports[sessionId]`. -/
def lookupT {κ τ : Type} [DecidableEq κ] : List (κ × τ) → κ → Option τ
  | [], _ => none
  | (k, v) :: rest, id => if k = id then some v else lookupT rest id

/-- Deletion of a key: `delete transports[sessionId]`.  Removing an
absent key leaves the object unchanged. -/
def eraseT {κ τ : Type} [DecidableEq κ] (t : List (κ × τ)) (id : κ) : List (κ × τ) :=
  t.filter (fun p => decide (p.1 ≠ id))

/-- Assignment `transports[sessionId] = transport`: any previous binding
of the key is overwritten. -/
def insertT {κ τ : Type} [DecidableEq κ] (t : List (κ × τ)) (id : κ) (v : τ) :
    List (κ × τ) :=
  (id, v) :: eraseT t id

/-- JS truthiness of a `string | undefined` value: `undefined` and the
empty string are falsy. -/
def truthy : Option String → Bool
  | none => false
  | some s => !s.isEmpty

/-- The value of the JS expression `sessionId && transports[sessionId]`
seen as an optional transport: `none` when the id is falsy or unbound. -/
def lookupJS {τ : Type} (t : List (String × τ)) (sid : Option String) : Option τ :=
  match sid with
  | none => none
  | some s => if s.isEmpty then none else lookupT t s

/-! ### Request/response binding: `POST /mcp` (src/mcpServer.ts 90-125) -/

/-- The JSON-RPC error envelope sent by the `POST /mcp` handler when the
request is unroutable. -/
structure JsonRpcErrorBody where
  jsonrpc : String
  code : Int
  message : String
  -- `id: null` is modelled as `none`
  id : Option Int
deriving DecidableEq, Repr

/-- The literal envelope from src/mcpServer.ts lines 113-120. -/
def badRequestEnvelope : JsonRpcErrorBody :=
  { jsonrpc := "2.0"
    code := -32000
    message := "Bad Request: No valid session ID provided"
    id := none }

/-- Outcome of the `POST /mcp` route. -/
inductive McpPostResult (τ : Type) where
  /-- An existing transport handles the request (`transport.handleRequest`). -/
  | routed (t : τ)
  /-- A fresh transport was created for an initialization request;
  registration into the table happens later, via `onsessioninitialized`. -/
  | created
  /-- `res.status(status).json(body)` and return. -/
  | rejected (status : Nat) (body : JsonRpcErrorBody)
deriving DecidableEq, Repr

/-- The `app.post("/mcp")` handler.  Faithful to the classification
`if (sessionId && transports[sessionId]) ... else if (!sessionId &&
isInitializeRequest(req.body)) ... else ...`; the handler itself never
mutates the table (registration is deferred to the
`onsessioninitialized` callback, see `routerStep`). -/
def mcpPost {τ : Type} (table : List (String × τ)) (sid : Option String)
    (isInit : Bool) : McpPostResult τ × List (String × τ) :=
  match lookupJS table sid with
  | some t => (.routed t, table)
  | none =>
    if !truthy sid && isInit then
      (.created, table)
    else
      (.rejected 400 badRequestEnvelope, table)

/-- Whether an HTTP status code is a success (2xx) status. -/
def isHttpSuccess (status : Nat) : Bool :=
  200 ≤ status && status < 300

/-! ### Request/response binding: GET/DELETE `/mcp` (src/mcpServer.ts 127-142) -/

/-- Outcome of `handleSessionRequest` (shared by `GET /mcp` and
`DELETE /mcp`). -/
inductive SessionReqResult (τ : Type) where
  /-- `res.status(status).send(body)` and return. -/
  | rejected (status : Nat) (body : String)
  /-- The existing transport handles the request. -/
  | handled (t : τ)
deriving DecidableEq, Repr

/-- The `handleSessionRequest` function: reject with HTTP 400 unless the
`mcp-session-id` header is truthy and bound in the table
(`if (!sessionId || !transports[sessionId])`). -/
def handleSessionRequest {τ : Type} (table : List (String × τ))
    (sid : Option String) : SessionReqResult τ × List (String × τ) :=
  match lookupJS table sid with
  | none => (.rejected 400 "Invalid or missing session ID", table)
  | some t => (.handled t, table)

/-! ### Push-stream binding: `POST /sse` and `POST /messages` (src/sseServer.ts 147-178) -/

/-- Outcome of the two message-submission routes. -/
inductive SsePostResult (τ β : Type) where
  /-- `res.status(status).send(body)` and return, no further processing. -/
  | rejected (status : Nat) (body : String)
  /-- `transport.handlePostMessage(req, res, req.body)`: the body is
  forwarded to the resolved transport. -/
  | forwarded (t : τ) (body : β)
deriving DecidableEq, Repr

/-- The legacy `app.post("/sse")` handler (src/sseServer.ts 147-161). -/
def ssePostSse {τ β : Type} (table : List (String × τ)) (sid : Option String)
    (body : β) : SsePostResult τ β × List (String × τ) :=
  match lookupJS table sid with
  | none => (.rejected 400 "Invalid or missing sessionId", table)
  | some t => (.forwarded t body, table)

/-- The modern `app.post("/messages")` handler (src/sseServer.ts 164-178). -/
def ssePostMessages {τ β : Type} (table : List (String × τ)) (sid : Option String)
    (body : β) : SsePostResult τ β × List (String × τ) :=
  match lookupJS table sid with
  | none => (.rejected 400 "Invalid or missing sessionId", table)
  | some t => (.forwarded t body, table)

/-! ### The `stream_numbers` tool -/

/-- A JS `number` used as a loop bound: either a mathematical integer or
`NaN`.  (Non-integral finite bounds behave like their floor for the loop
`for (let i = 1; i <= count; i++)`; the claims only concern integers and
`NaN`.) -/
inductive JSNum where
  | nan : JSNum
  | num : Int → JSNum
deriving DecidableEq, Repr

/-- The JS comparison `i <= count`: every comparison with `NaN` is false. -/
def jsLe (i : Int) (c : JSNum) : Bool :=
  match c with
  | .nan => false
  | .num n => decide (i ≤ n)

/-- Remaining iterations of the loop, used as termination measure. -/
def jsFuel (i : Int) (c : JSNum) : Nat :=
  match c with
  | .nan => 0
  | .num n => (n + 1 - i).toNat

/-- One emitted notification: the embedded numeric value together with
the text carried in the notification params. -/
structure Notif where
  value : Int
  text : String
deriving DecidableEq, Repr

/-- Outcome of one tool invocation: the normal final result, or the
handler failing (its promise rejecting), which the registry surfaces as
the invocation failing. -/
inductive ToolOutcome where
  | result (text : String)
  | failed (err : String)
deriving DecidableEq, Repr

/-- The loop of `stream_numbers` in src/mcpServer.ts (lines 40-50): each
notification send is awaited, so if `deliver i` is false the awaited
promise rejects and the handler aborts with that rejection; only after
the loop finishes is the final result "Done!" returned.  Returns the
notifications whose send was issued, and the outcome. -/
def mcpStreamFrom (deliver : Int → Bool) (i : Int) (count : JSNum) :
    List Notif × ToolOutcome :=
  if h : jsLe i count = true then
    let notif : Notif := ⟨i, toString i ++ "\n"⟩
    if deliver i then
      let rest := mcpStreamFrom deliver (i + 1) count
      (notif :: rest.1, rest.2)
    else
      ([notif], .failed "notification delivery failed")
  else
    ([], .result "Done!")
termination_by jsFuel i count
decreasing_by
  cases count with
  | nan => simp [jsLe] at h
  | num n => simp [jsLe] at h; simp [jsFuel]; omega

/-- `stream_numbers` of the request/response binding, started at `i = 1`. -/
def mcpStream (deliver : Int → Bool) (count : JSNum) : List Notif × ToolOutcome :=
  mcpStreamFrom deliver 1 count

/-- The text carried by the i-th notification of the push-stream
binding, and equally the i-th token appended to the accumulator:
`` `${value} ` `` with `value = i * 2`. -/
def sseNotifText (value : Int) : String :=
  toString value ++ " "

/-- Result of the `stream_numbers` loop in src/sseServer.ts. -/
structure SseStreamOut where
  /-- Notifications whose send was issued (fire-and-forget). -/
  attempted : List Notif
  /-- Notifications whose send promise resolved (delivery succeeded). -/
  delivered : List Notif
  /-- The accumulator, returned as the final result text. -/
  final : String
deriving DecidableEq, Repr

/-- The loop of `stream_numbers` in src/sseServer.ts (lines 49-85):
`value = i * 2`; the notification send is NOT awaited and a rejection is
caught and logged, so `deliver` only determines whether the notification
is delivered, never the control flow; the accumulator grows by
`` `${value} ` `` each iteration and is returned as the final result. -/
def sseStreamFrom (deliver : Int → Bool) (i : Int) (count : JSNum) (acc : String) :
    SseStreamOut :=
  if h : jsLe i count = true then
    let value := i * 2
    let notif : Notif := ⟨value, sseNotifText value⟩
    let rest := sseStreamFrom deliver (i + 1) count (acc ++ sseNotifText value)
    { attempted := notif :: rest.attempted
      delivered := if deliver i then notif :: rest.delivered else rest.delivered
      final := rest.final }
  else
    { attempted := [], delivered := [], final := acc }
termination_by jsFuel i count
decreasing_by
  cases count with
  | nan => simp [jsLe] at h
  | num n => simp [jsLe] at h; simp [jsFuel]; omega

/-- `stream_numbers` of the push-stream binding: `accumulator = ""`,
loop from `i = 1`. -/
def sseStream (deliver : Int → Bool) (count : JSNum) : SseStreamOut :=
  sseStreamFrom deliver 1 count ""

/-! ### `getRandomWord` (src/mcpServer.ts 12-13, src/sseServer.ts 11-12) -/

/-- The fixed vocabulary. -/
def vocab : List String := ["apple", "banana", "cherry"]

/-- `["apple", "banana", "cherry"][Math.floor(Math.random() * 3)]`,
with the value produced by `Math.random()` passed in as `r`; an
out-of-bounds index would yield `undefined`, modelled as `none`. -/
def getRandomWord (r : ℚ) : Option String :=
  vocab.get? (⌊r * 3⌋).toNat

/-! ### Session destruction -/

/-- The `res.on("close")` callback of `GET /sse` (src/sseServer.ts
125-135): close the transport, delete it from `transports`, and if a
server is registered under the id, close it and delete it from
`servers`. -/
def sseOnClose {τ σ : Type} (transports : List (String × τ))
    (servers : List (String × σ)) (sessionId : String) :
    List (String × τ) × List (String × σ) :=
  let transports2 := eraseT transports sessionId
  match lookupT servers sessionId with
  | some _ => (transports2, eraseT servers sessionId)
  | none => (transports2, servers)

/-- The `transport.onclose` callback of the request/response binding
(src/mcpServer.ts 104-108): `if (transport.sessionId) delete
transports[transport.sessionId]`.  `tsid` is `transport.sessionId`
(`undefined` before the handshake assigns it; the empty string would be
falsy). -/
def mcpOnClose {τ : Type} (table : List (String × τ)) (tsid : Option String) :
    List (String × τ) :=
  match tsid with
  | some sessionId =>
      if sessionId.isEmpty then table else eraseT table sessionId
  | none => table

/-! ### Session registration timing in the request/response binding

src/mcpServer.ts 96-108: a fresh `StreamableHTTPServerTransport` is
created with an `onsessioninitialized` callback that stores the
transport in `transports` under the session id produced by the completed
handshake, and an `onclose` callback that deletes that id.  Transports
are identified below by an abstract token `tid : Nat`; the state records
the table (session id to transport) and each transport's assigned
session id (`transport.sessionId`, set by the handshake). -/

structure RouterState where
  /-- The `transports` record: session id to transport. -/
  table : List (String × Nat)
  /-- `transport.sessionId` of each transport, set once its handshake
  completed. -/
  sid : List (Nat × String)
deriving DecidableEq, Repr

/-- Events a created-but-unregistered transport lifecycle can see. -/
inductive RouterEvent where
  /-- The handshake of transport `tid` completed, producing session id
  `sessionId`: the `onsessioninitialized` callback fires. -/
  | initialized (tid : Nat) (sessionId : String)
  /-- Transport `tid` closed: the `onclose` callback fires. -/
  | closed (tid : Nat)
deriving DecidableEq, Repr

/-- Effect of one event on the state, from the two callbacks in
src/mcpServer.ts 99-108. -/
def routerStep (s : RouterState) : RouterEvent → RouterState
  | .initialized tid sessionId =>
      { table := insertT s.table sessionId tid
        sid := insertT s.sid tid sessionId }
  | .closed tid =>
      match lookupT s.sid tid with
      | some sessionId =>
          if sessionId.isEmpty then s
          else { s with table := eraseT s.table sessionId }
      | none => s

/-- Run a list of events. -/
def routerRun (s : RouterState) : List RouterEvent → RouterState
  | [] => s
  | e :: es => routerRun (routerStep s e) es

/-- Whether an event is the handshake completion of transport `tid`. -/
def isInitOf (tid : Nat) : RouterEvent → Bool
  | .initialized t _ => t == tid
  | .closed _ => false

/-- The notifications issued by the sseServer loop for indices
`i, i+1, ...` over `f` iterations (closed form of the loop output). -/
def sseNotifsFrom (i : Int) : Nat → List Notif
  | 0 => []
  | f + 1 => ⟨i * 2, sseNotifText (i * 2)⟩ :: sseNotifsFrom (i + 1) f

/-! ### Lemmas about session tables -/

theorem lookupT_eraseT_self {κ τ : Type} [DecidableEq κ] (t : List (κ × τ)) (id : κ) :
    lookupT (eraseT t id) id = none := by
  induction t with
  | nil => rfl
  | cons p rest ih =>
    obtain ⟨k, v⟩ := p
    by_cases hk : k = id
    · simpa [eraseT, hk] using ih
    · simpa [eraseT, lookupT, hk] using ih

theorem eraseT_of_lookupT_none {κ τ : Type} [DecidableEq κ] (t : List (κ × τ)) (id : κ)
    (h : lookupT t id = none) : eraseT t id = t := by
  induction t with
  | nil => rfl
  | cons p rest ih =>
    obtain ⟨k, v⟩ := p
    by_cases hk : k = id
    · simp [lookupT, hk] at h
    · simp only [lookupT, if_neg hk] at h
      simp [eraseT, hk] at ih ⊢
      exact ih h

theorem lookupT_insertT_self {κ τ : Type} [DecidableEq κ] (t : List (κ × τ)) (id : κ)
    (v : τ) : lookupT (insertT t id v) id = some v := by
  simp [insertT, lookupT]

theorem lookupT_mem_values {κ τ : Type} [DecidableEq κ] (t : List (κ × τ)) (k : κ) (v : τ)
    (h : lookupT t k = some v) : v ∈ t.map Prod.snd := by
  induction t with
  | nil => simp [lookupT] at h
  | cons p rest ih =>
    obtain ⟨k1, v1⟩ := p
    by_cases hk : k1 = k
    · simp [lookupT, hk] at h
      simp [h]
    · simp only [lookupT, if_neg hk] at h
      simp [ih h]

theorem values_eraseT_subset {κ τ : Type} [DecidableEq κ] (t : List (κ × τ)) (id : κ)
    (v : τ) (h : v ∈ (eraseT t id).map Prod.snd) : v ∈ t.map Prod.snd := by
  have hs : (eraseT t id).Sublist t := List.filter_sublist t
  exact (hs.map Prod.snd).mem h

/-! ### Lemmas about the router lifecycle (request/response binding) -/

theorem routerStep_not_value (s : RouterState) (tid : Nat) (e : RouterEvent)
    (h0 : tid ∉ s.table.map Prod.snd) (he : isInitOf tid e = false) :
    tid ∉ (routerStep s e).table.map Prod.snd := by
  cases e with
  | initialized t sid0 =>
    simp [isInitOf] at he
    intro hmem
    simp only [routerStep, insertT, List.map_cons, List.mem_cons] at hmem
    rcases hmem with h1 | h1
    · exact he h1.symm
    · exact h0 (values_eraseT_subset _ _ _ h1)
  | closed t =>
    simp only [routerStep]
    cases hl : lookupT s.sid t with
    | none => exact h0
    | some sid0 =>
      by_cases hemp : sid0.isEmpty
      · simp [hemp, h0]
      · simp only [hemp, if_neg, Bool.false_eq_true, not_false_eq_true]
        intro hmem
        exact h0 (values_eraseT_subset _ _ _ hmem)

theorem routerRun_not_value (tid : Nat) (es : List RouterEvent) :
    ∀ s : RouterState, tid ∉ s.table.map Prod.snd →
      (∀ e ∈ es, isInitOf tid e = false) →
      tid ∉ (routerRun s es).table.map Prod.snd := by
  induction es with
  | nil => intro s h0 _; exact h0
  | cons e es ih =>
    intro s h0 hes
    exact ih (routerStep s e) (routerStep_not_value s tid e h0 (hes e (by simp)))
      (fun e2 he2 => hes e2 (by simp [he2]))

theorem lookupT_ne_of_not_value {κ τ : Type} [DecidableEq κ] (t : List (κ × τ)) (v : τ)
    (h : v ∉ t.map Prod.snd) (k : κ) : lookupT t k ≠ some v := by
  intro hc
  exact h (lookupT_mem_values t k v hc)

/-! ### Lemmas about the sseServer stream loop -/

theorem sse_final_fold (deliver : Int → Bool) (i : Int) (c : JSNum) (acc : String) :
    (sseStreamFrom deliver i c acc).final =
      (sseStreamFrom deliver i c acc).attempted.foldl (fun a nf => a ++ nf.text) acc := by
  induction i, c, acc using sseStreamFrom.induct deliver with
  | case1 i c acc h v ih =>
    rw [sseStreamFrom]
    simp only [dif_pos h, List.foldl_cons]
    exact ih
  | case2 i c acc h =>
    rw [sseStreamFrom]
    simp [dif_neg h]

theorem sse_attempted_closed (deliver : Int → Bool) (n : Int) :
    ∀ (f : Nat) (i : Int) (acc : String), (n + 1 - i).toNat = f →
      (sseStreamFrom deliver i (.num n) acc).attempted = sseNotifsFrom i f := by
  intro f
  induction f with
  | zero =>
    intro i acc hf
    have hle : jsLe i (.num n) = false := by simp [jsLe]; omega
    rw [sseStreamFrom]
    simp [hle, sseNotifsFrom]
  | succ f ih =>
    intro i acc hf
    have hle : jsLe i (.num n) = true := by simp [jsLe]; omega
    rw [sseStreamFrom]
    simp only [dif_pos hle, sseNotifsFrom]
    rw [ih (i + 1) (acc ++ sseNotifText (i * 2)) (by omega)]

theorem sseNotifsFrom_get (i : Int) :
    ∀ (f k : Nat), k < f →
      (sseNotifsFrom i f).get? k =
        some ⟨(i + k) * 2, sseNotifText ((i + (k : Int)) * 2)⟩ := by
  intro f
  induction f generalizing i with
  | zero => intro k hk; omega
  | succ f ih =>
    intro k hk
    cases k with
    | zero => simp [sseNotifsFrom]
    | succ k =>
      simp only [sseNotifsFrom, List.get?_cons_succ]
      rw [ih (i + 1) k (by omega)]
      congr 2 <;> push_cast <;> ring_nf

theorem sseNotifsFrom_length (i : Int) :
    ∀ f : Nat, (sseNotifsFrom i f).length = f := by
  intro f
  induction f generalizing i with
  | zero => rfl
  | succ f ih => simp [sseNotifsFrom, ih]

/-! ## The claims -/

/-- Claim C1, counterexample to the claim as stated: a POST to `/mcp`
with no session id header and a non-initialization body is answered with
HTTP status 400, which is not an HTTP-level success status (the envelope
and the absence of state creation do hold). -/
theorem c1_counterexample :
    mcpPost ([] : List (String × Nat)) none false =
      (.rejected 400 badRequestEnvelope, []) ∧
    isHttpSuccess 400 = false :=
  ⟨rfl, rfl⟩

/-- Claim C1, amended: for every POST to `/mcp` carrying no session id
header and a non-initialization body, the server responds with HTTP
status 400 (not a success status) and the literal JSON-RPC error
envelope, and the session table is unchanged. -/
theorem c1_theorem (τ : Type) (table : List (String × τ)) :
    mcpPost table none false = (.rejected 400 badRequestEnvelope, table) ∧
    isHttpSuccess 400 = false :=
  ⟨rfl, rfl⟩

/-- Claim C2, counterexample to the claim as stated: in the
request/response binding (src/mcpServer.ts), where every
`sendNotification` is awaited without a catch, an invocation of
`stream_numbers` with `count = 3` in which only the second delivery
fails issues just 2 notifications, produces no final result, and the
delivery failure surfaces as the failure of the invocation itself. -/
theorem c2_counterexample :
    mcpStream (fun i => decide (i ≠ 2)) (JSNum.num 3) =
      ([⟨1, "1\n"⟩, ⟨2, "2\n"⟩], ToolOutcome.failed "notification delivery failed") ∧
    (fun i => decide (i ≠ 2)) (2 : Int) = false := by
  constructor
  · simp [mcpStream, mcpStreamFrom, jsLe]
    exact ⟨rfl, rfl⟩
  · rfl

/-- Claim C2, amended: `stream_numbers` with `count = 3` emits exactly 3
notifications with strictly increasing embedded values followed by
exactly one final result.  In the push binding this holds for every
delivery behaviour, because sends are fire-and-forget with a catch: a
delivery failure never aborts the invocation and is never surfaced.  In
the request/response binding it holds when every delivery succeeds, and
the final result is produced there exactly when all three deliveries
succeed (a failure aborts the invocation). -/
theorem c2_theorem (deliver : Int → Bool) :
    ((sseStream deliver (JSNum.num 3)).attempted.map Notif.value = [2, 4, 6] ∧
     List.Chain' (· < ·) ((sseStream deliver (JSNum.num 3)).attempted.map Notif.value) ∧
     (sseStream deliver (JSNum.num 3)).final = "2 4 6 ") ∧
    mcpStream (fun _ => true) (JSNum.num 3) =
      ([⟨1, "1\n"⟩, ⟨2, "2\n"⟩, ⟨3, "3\n"⟩], .result "Done!") ∧
    ((mcpStream deliver (JSNum.num 3)).2 = .result "Done!" ↔
      (deliver 1 = true ∧ deliver 2 = true ∧ deliver 3 = true)) := by
  refine ⟨⟨?_, ?_, ?_⟩, ?_, ?_⟩
  · simp [sseStream, sseStreamFrom, jsLe, sseNotifText]
  · have h : (sseStream deliver (JSNum.num 3)).attempted.map Notif.value = [2, 4, 6] := by
      simp [sseStream, sseStreamFrom, jsLe, sseNotifText]
    rw [h]
    norm_num [List.chain'_cons]
  · simp [sseStream, sseStreamFrom, jsLe, sseNotifText]
    rfl
  · simp [mcpStream, mcpStreamFrom, jsLe]
    refine ⟨rfl, rfl, rfl⟩
  · rcases h1 : deliver 1 <;> rcases h2 : deliver 2 <;> rcases h3 : deliver 3 <;>
      simp [mcpStream, mcpStreamFrom, jsLe, h1, h2, h3]

/-- Claim C3: every POST to `/mcp` is classified in the fixed order of
src/mcpServer.ts 94-122: a session id bound in the table routes to that
transport unconditionally (even for an initialization body); otherwise a
falsy id with an initialization body creates a fresh transport; in every
other case (including an unknown id with an initialization body) the
request is rejected with the structured error and the table is
unchanged. -/
theorem c3_theorem (τ : Type) (table : List (String × τ)) (sid : Option String)
    (isInit : Bool) :
    (∀ t, lookupJS table sid = some t → mcpPost table sid isInit = (.routed t, table)) ∧
    (lookupJS table sid = none → truthy sid = false → isInit = true →
      mcpPost table sid isInit = (.created, table)) ∧
    (lookupJS table sid = none → (truthy sid = true ∨ isInit = false) →
      mcpPost table sid isInit = (.rejected 400 badRequestEnvelope, table)) := by
  refine ⟨?_, ?_, ?_⟩
  · intro t ht
    simp [mcpPost, ht]
  · intro h1 h2 h3
    simp [mcpPost, h1, h2, h3]
  · intro h1 h2
    rcases h2 with h2 | h2 <;> simp [mcpPost, h1, h2]

/-- Claim C3, witness: an existing session wins even for an
initialization body; no id plus initialization creates; an unknown id
plus an initialization body is rejected. -/
theorem c3_witness :
    (lookupJS [("abc", 7)] (some "abc") = some 7 ∧
      mcpPost [("abc", 7)] (some "abc") true = (.routed 7, [("abc", 7)])) ∧
    mcpPost ([] : List (String × Nat)) none true = (.created, []) ∧
    mcpPost [("abc", 7)] (some "zzz") true =
      (.rejected 400 badRequestEnvelope, [("abc", 7)]) :=
  ⟨⟨rfl, (c3_theorem Nat [("abc", 7)] (some "abc") true).1 7 rfl⟩,
   (c3_theorem Nat [] none true).2.1 rfl rfl rfl,
   (c3_theorem Nat [("abc", 7)] (some "zzz") true).2.2 rfl (Or.inl rfl)⟩

/-- Claim C4: the legacy `POST /sse` handler and the current
`POST /messages` handler compute the same function: a missing or
unregistered `sessionId` query parameter yields HTTP 400 with
"Invalid or missing sessionId" and nothing else happens; a registered
one has the body forwarded to that transport. -/
theorem c4_theorem (τ β : Type) (table : List (String × τ)) (sid : Option String)
    (body : β) :
    ssePostSse table sid body = ssePostMessages table sid body ∧
    (lookupJS table sid = none →
      ssePostSse table sid body = (.rejected 400 "Invalid or missing sessionId", table) ∧
      ssePostMessages table sid body =
        (.rejected 400 "Invalid or missing sessionId", table)) ∧
    (∀ t, lookupJS table sid = some t →
      ssePostSse table sid body = (.forwarded t body, table) ∧
      ssePostMessages table sid body = (.forwarded t body, table)) := by
  refine ⟨?_, ?_, ?_⟩
  · cases h : lookupJS table sid <;> simp [ssePostSse, ssePostMessages, h]
  · intro h
    simp [ssePostSse, ssePostMessages, h]
  · intro t ht
    simp [ssePostSse, ssePostMessages, ht]

/-- Claim C4, witness: both endpoints reject an unknown id and both
forward for a registered id. -/
theorem c4_witness :
    (ssePostSse ([] : List (String × Nat)) (some "s") "b" =
      (.rejected 400 "Invalid or missing sessionId", []) ∧
     ssePostMessages ([] : List (String × Nat)) (some "s") "b" =
      (.rejected 400 "Invalid or missing sessionId", [])) ∧
    (ssePostSse [("s", 5)] (some "s") "b" = (.forwarded 5 "b", [("s", 5)]) ∧
     ssePostMessages [("s", 5)] (some "s") "b" = (.forwarded 5 "b", [("s", 5)])) :=
  ⟨(c4_theorem Nat String [] (some "s") "b").2.1 rfl,
   (c4_theorem Nat String [("s", 5)] (some "s") "b").2.2 5 rfl⟩

/-- Claim C5: starting from any state in which transport `tid` is not in
the table, as long as no `onsessioninitialized` event for `tid` occurs,
no session id resolves to `tid` — the new transport is not addressable;
and the step in which its handshake completes registers it under exactly
the id the handshake produced. -/
theorem c5_theorem (s : RouterState) (tid : Nat) (es : List RouterEvent)
    (h0 : tid ∉ s.table.map Prod.snd)
    (hes : ∀ e ∈ es, isInitOf tid e = false) :
    (∀ sessionId, lookupT (routerRun s es).table sessionId ≠ some tid) ∧
    (∀ sessionId,
      lookupT (routerStep (routerRun s es) (.initialized tid sessionId)).table sessionId =
        some tid) := by
  constructor
  · exact lookupT_ne_of_not_value _ _ (routerRun_not_value tid es s h0 hes)
  · intro sessionId
    simp only [routerStep]
    exact lookupT_insertT_self _ _ _

/-- Claim C5, witness: with an unrelated transport initializing and
closing, transport 7 stays unaddressable, and completing its handshake
registers it. -/
theorem c5_witness :
    (7 ∉ (RouterState.mk [] []).table.map Prod.snd) ∧
    (∀ e ∈ [RouterEvent.initialized 3 "a", RouterEvent.closed 3], isInitOf 7 e = false) ∧
    ((∀ sessionId,
        lookupT (routerRun ⟨[], []⟩
          [RouterEvent.initialized 3 "a", RouterEvent.closed 3]).table sessionId ≠
          some 7) ∧
     (∀ sessionId,
        lookupT (routerStep
          (routerRun ⟨[], []⟩ [RouterEvent.initialized 3 "a", RouterEvent.closed 3])
          (.initialized 7 sessionId)).table sessionId = some 7)) :=
  ⟨by decide, by decide,
   c5_theorem ⟨[], []⟩ 7 [RouterEvent.initialized 3 "a", RouterEvent.closed 3]
     (by decide) (by decide)⟩

/-- Claim C6: after destruction (the push binding close callback, or the
request/response onclose callback), the id is absent from the session
tables; deleting an absent id is a no-op; and any subsequent request
referencing the destroyed id is treated as an unknown session by every
handler. -/
theorem c6_theorem (τ σ β : Type) (transports : List (String × τ))
    (servers : List (String × σ)) (id : String) (body : β) :
    lookupT (sseOnClose transports servers id).1 id = none ∧
    lookupT (sseOnClose transports servers id).2 id = none ∧
    (id.isEmpty = false → lookupT (mcpOnClose transports (some id)) id = none) ∧
    (lookupT transports id = none → eraseT transports id = transports) ∧
    handleSessionRequest (eraseT transports id) (some id) =
      (.rejected 400 "Invalid or missing session ID", eraseT transports id) ∧
    ssePostSse (eraseT transports id) (some id) body =
      (.rejected 400 "Invalid or missing sessionId", eraseT transports id) ∧
    ssePostMessages (eraseT transports id) (some id) body =
      (.rejected 400 "Invalid or missing sessionId", eraseT transports id) := by
  have hJS : lookupJS (eraseT transports id) (some id) = none := by
    by_cases he : id.isEmpty <;> simp [lookupJS, he, lookupT_eraseT_self]
  refine ⟨?_, ?_, ?_, ?_, ?_, ?_, ?_⟩
  · cases hl : lookupT servers id <;>
      simp [sseOnClose, hl, lookupT_eraseT_self]
  · cases hl : lookupT servers id <;>
      simp [sseOnClose, hl, lookupT_eraseT_self]
  · intro he
    simp [mcpOnClose, he, lookupT_eraseT_self]
  · exact eraseT_of_lookupT_none transports id
  · simp [handleSessionRequest, hJS]
  · simp [ssePostSse, hJS]
  · simp [ssePostMessages, hJS]

/-- Claim C6, witness: destroying session "s" makes it unknown
everywhere, and deleting an id that is not there changes nothing. -/
theorem c6_witness :
    (lookupT (sseOnClose [("s", 1)] [("s", 2)] "s").1 "s" = none ∧
     lookupT (sseOnClose [("s", 1)] [("s", 2)] "s").2 "s" = none ∧
     lookupT (mcpOnClose [("s", 1)] (some "s")) "s" = none) ∧
    (lookupT [("x", 1)] "s" = none ∧ eraseT [("x", 1)] "s" = [("x", 1)]) ∧
    handleSessionRequest (eraseT [("s", 1)] "s") (some "s") =
      (.rejected 400 "Invalid or missing session ID", eraseT [("s", 1)] "s") ∧
    ssePostSse (eraseT [("s", 1)] "s") (some "s") "b" =
      (.rejected 400 "Invalid or missing sessionId", eraseT [("s", 1)] "s") :=
  ⟨⟨(c6_theorem Nat Nat String [("s", 1)] [("s", 2)] "s" "b").1,
    (c6_theorem Nat Nat String [("s", 1)] [("s", 2)] "s" "b").2.1,
    (c6_theorem Nat Nat String [("s", 1)] [("s", 2)] "s" "b").2.2.1 rfl⟩,
   ⟨rfl, (c6_theorem Nat Nat String [("x", 1)] [] "s" "b").2.2.2.1 rfl⟩,
   (c6_theorem Nat Nat String [("s", 1)] [("s", 2)] "s" "b").2.2.2.2.1,
   (c6_theorem Nat Nat String [("s", 1)] [("s", 2)] "s" "b").2.2.2.2.2.1⟩

/-- Claim C7: a GET or DELETE to `/mcp` whose session id header is
absent or not bound in the table gets HTTP 400 with the plain-text
invalid-or-missing-session body, and the table is unchanged (both
methods run the same `handleSessionRequest`). -/
theorem c7_theorem (τ : Type) (table : List (String × τ)) (sid : Option String)
    (h : sid = none ∨ lookupJS table sid = none) :
    handleSessionRequest table sid =
      (.rejected 400 "Invalid or missing session ID", table) := by
  have hJS : lookupJS table sid = none := by
    rcases h with rfl | h
    · rfl
    · exact h
  simp [handleSessionRequest, hJS]

/-- Claim C7, witness: a missing header and an unknown header are both
rejected with the table unchanged. -/
theorem c7_witness :
    handleSessionRequest ([] : List (String × Nat)) none =
      (.rejected 400 "Invalid or missing session ID", []) ∧
    handleSessionRequest [("s", 5)] (some "zzz") =
      (.rejected 400 "Invalid or missing session ID", [("s", 5)]) :=
  ⟨c7_theorem Nat [] none (Or.inl rfl),
   c7_theorem Nat [("s", 5)] (some "zzz") (Or.inr rfl)⟩

/-- Claim C8: for every value the random source can produce (any
rational in [0, 1)), the vocabulary index `Math.floor(r * 3)` is in
bounds and `get_secret_word` returns a defined member of the fixed
vocabulary. -/
theorem c8_theorem (r : ℚ) (h0 : 0 ≤ r) (h1 : r < 1) :
    (⌊r * 3⌋).toNat < vocab.length ∧
      ∃ w, getRandomWord r = some w ∧ w ∈ vocab := by
  have hf0 : 0 ≤ ⌊r * 3⌋ := Int.floor_nonneg.mpr (by positivity)
  have hf3 : ⌊r * 3⌋ < 3 := Int.floor_lt.mpr (by push_cast; nlinarith)
  have hlen : vocab.length = 3 := rfl
  refine ⟨by omega, ?_⟩
  obtain ⟨w, hw⟩ : ∃ w, vocab.get? (⌊r * 3⌋).toNat = some w := by
    rw [List.get?_eq_get (by omega)]
    exact ⟨_, rfl⟩
  exact ⟨w, hw, List.get?_mem hw⟩

/-- Claim C8, witness: at `r = 1/2` the index is in bounds and the
result is in the vocabulary. -/
theorem c8_witness :
    (0 : ℚ) ≤ 1 / 2 ∧ (1 / 2 : ℚ) < 1 ∧
      ((⌊(1 / 2 : ℚ) * 3⌋).toNat < vocab.length ∧
        ∃ w, getRandomWord (1 / 2) = some w ∧ w ∈ vocab) :=
  ⟨by norm_num, by norm_num, c8_theorem (1 / 2) (by norm_num) (by norm_num)⟩

/-- Claim C9: in the push binding, for every integer count the final
result text is the concatenation of the texts of all emitted
notifications, there are `count.toNat` of them, and the k-th (0-based)
notification carries the doubled value `2 * (k + 1)` followed by a
space; for `count = 3` the final result is "2 4 6 ". -/
theorem c9_theorem (deliver : Int → Bool) (n : Int) :
    (sseStream deliver (JSNum.num n)).final =
      String.join ((sseStream deliver (JSNum.num n)).attempted.map Notif.text) ∧
    (sseStream deliver (JSNum.num n)).attempted.length = n.toNat ∧
    (∀ k : Nat, k < n.toNat →
      (sseStream deliver (JSNum.num n)).attempted.get? k =
        some ⟨2 * ((k : Int) + 1), sseNotifText (2 * ((k : Int) + 1))⟩) ∧
    (sseStream deliver (JSNum.num 3)).final = "2 4 6 " := by
  have hclosed := sse_attempted_closed deliver n n.toNat 1 "" (by omega)
  refine ⟨?_, ?_, ?_, ?_⟩
  · have h := sse_final_fold deliver 1 (JSNum.num n) ""
    rw [sseStream, h, String.join, List.foldl_map]
  · rw [sseStream, hclosed, sseNotifsFrom_length]
  · intro k hk
    rw [sseStream, hclosed, sseNotifsFrom_get 1 n.toNat k hk]
    have h2 : ((1 : Int) + k) * 2 = 2 * ((k : Int) + 1) := by ring
    rw [h2]
  · simp [sseStream, sseStreamFrom, jsLe, sseNotifText]
    rfl

/-- Claim C10: for every count strictly below 1 — zero, negative, or NaN
(with which every comparison is false) — `stream_numbers` emits zero
notifications and still returns exactly one final result: "Done!" in the
request/response binding and the empty accumulator in the push
binding. -/
theorem c10_theorem (deliver : Int → Bool) (c : JSNum)
    (h : c = JSNum.nan ∨ ∃ n, c = JSNum.num n ∧ n < 1) :
    mcpStream deliver c = ([], ToolOutcome.result "Done!") ∧
    sseStream deliver c = ⟨[], [], ""⟩ := by
  have hle : jsLe 1 c = false := by
    rcases h with rfl | ⟨n, rfl, hn⟩
    · rfl
    · simp [jsLe]; omega
  constructor
  · rw [mcpStream, mcpStreamFrom]
    simp [hle]
  · rw [sseStream, sseStreamFrom]
    simp [hle]

/-- Claim C10, witness: at `count = 0` both bindings emit nothing and
return their final result. -/
theorem c10_witness :
    (JSNum.num 0 = JSNum.nan ∨ ∃ n, JSNum.num 0 = JSNum.num n ∧ n < 1) ∧
    mcpStream (fun _ => true) (JSNum.num 0) = ([], ToolOutcome.result "Done!") ∧
    sseStream (fun _ => true) (JSNum.num 0) = ⟨[], [], ""⟩ := by
  have h : JSNum.num 0 = JSNum.nan ∨ ∃ n, JSNum.num 0 = JSNum.num n ∧ n < 1 :=
    Or.inr ⟨0, rfl, by norm_num⟩
  exact ⟨h, (c10_theorem (fun _ => true) (JSNum.num 0) h).1,
    (c10_theorem (fun _ => true) (JSNum.num 0) h).2⟩
